import Mathlib

/-!
Verification development for the Local Model Inventory & Compatibility
Assessment subsystem (src/src-tauri/src/system_info.rs and
src/src-tauri/src/ollama.rs).

Modelling conventions:
  * Rust `f64` arithmetic is embedded as exact rational arithmetic (`ℚ`);
    every numeric literal in the source is exactly representable.
  * Rust `String`/`&str` operations are embedded over `String` viewed as its
    list of characters, with executable helpers (`strContains`, `strSplitOn`,
    ...) mirroring the semantics of the Rust standard-library operations used
    by the source (`str::contains`, `str::split`, `str::ends_with`,
    `str::to_lowercase` restricted to ASCII, `Path::file_stem` with POSIX
    separators).
  * The filesystem seen by the scanner is an explicit tree (`FsEntry`): a file
    carries the result of its metadata query (`none` = metadata read failure),
    a directory carries a `readOk` flag (`false` = `fs::read_dir` fails, e.g.
    permission denied) and its entries.  A provider root directory is an
    `Option` (`none` = the path does not exist).
  * OS probing (`get_system_resources`) is I/O; the probed snapshot is passed
    to `validate_model_compatibility` as an explicit `SystemResources` value.
-/

/-! ## Character-list string helpers -/

/-- Does the first list start with the second one?  Mirrors matching a pattern
at the front of a Rust string slice. -/
def listStartsWith : List Char → List Char → Bool
  | _, [] => true
  | [], _ :: _ => false
  | a :: as, b :: bs => a == b && listStartsWith as bs

/-- Substring containment on character lists: some suffix of `s` starts with
`pat`.  Mirrors Rust `str::contains` for a string pattern. -/
def listContainsSub (pat : List Char) : List Char → Bool
  | [] => listStartsWith [] pat
  | c :: rest => listStartsWith (c :: rest) pat || listContainsSub pat rest

/-- Rust `str::contains` with a string pattern. -/
def strContains (s pat : String) : Bool := listContainsSub pat.data s.data

/-- Rust `str::contains` with a `char` pattern. -/
def strContainsChar (s : String) (c : Char) : Bool := s.data.contains c

/-- Rust `str::ends_with`. -/
def strEndsWith (s pat : String) : Bool :=
  listStartsWith s.data.reverse pat.data.reverse

/-- ASCII lower-casing of one character (Rust `to_lowercase`, restricted to
the ASCII range, which covers every keyword the source matches against). -/
def charLower (c : Char) : Char :=
  if 'A' ≤ c ∧ c ≤ 'Z' then Char.ofNat (c.toNat + 32) else c

/-- Rust `str::to_lowercase` (ASCII fragment). -/
def strLower (s : String) : String := ⟨s.data.map charLower⟩

/-- Worker for `strSplitOn`: splits at the leftmost non-overlapping
occurrences of `sep`, accumulating the current piece in reverse in `acc`.
The fuel argument only bounds the recursion; every step consumes at least one
character when `sep` is non-empty, so fuel = length of the input suffices and
the zero-fuel case is unreachable from `strSplitOn`. -/
def splitGo (sep : List Char) : List Char → List Char → Nat → List (List Char)
  | [], acc, _ => [acc.reverse]
  | c :: rest, acc, 0 => [acc.reverse ++ c :: rest]
  | c :: rest, acc, fuel + 1 =>
    if listStartsWith (c :: rest) sep then
      acc.reverse :: splitGo sep (List.drop sep.length (c :: rest)) [] fuel
    else
      splitGo sep rest (c :: acc) fuel

/-- Rust `str::split` with a string pattern (the source only splits with
non-empty patterns; for an empty pattern we return the whole string). -/
def strSplitOn (s sep : String) : List String :=
  if sep.data.isEmpty then [s]
  else (splitGo sep.data s.data [] s.data.length).map (fun cs => String.mk cs)

/-- Joins pieces with a separator (used to rebuild a file stem that itself
contains dots, as Rust `Path::file_stem` keeps everything before the last
dot). -/
def strIntercalate (sep : String) : List String → String
  | [] => ""
  | [a] => a
  | a :: b :: rest => a ++ sep ++ strIntercalate sep (b :: rest)

/-- Rust `Path::file_stem().unwrap_or_default()` under POSIX separators: the
last `/`-separated component of the path, stripped of the part after its last
dot; a name whose only dot is a leading one is kept whole; a path with no
file name yields the empty string. -/
def file_stem_unix (path : String) : String :=
  let name := (strSplitOn path "/").getLastD ""
  let parts := strSplitOn name "."
  if parts.length ≤ 1 then name
  else if parts.headD "" = "" ∧ parts.length = 2 then name
  else strIntercalate "." parts.dropLast

/-! ## Data model (ollama.rs lines 131-154, system_info.rs lines 3-20) -/

/-- ollama.rs lines 140-146: `enum ModelSource`. -/
inductive ModelSource where
  | Ollama : ModelSource
  | LmStudio : ModelSource
  | Other : ModelSource
deriving DecidableEq

/-- ollama.rs lines 131-138: `struct LocalModel`. -/
structure LocalModel where
  name : String
  path : String
  size_bytes : Nat
  source : ModelSource
  format : Option String
deriving DecidableEq

/-- ollama.rs lines 148-154: `struct ModelDiscoveryResult`. -/
structure ModelDiscoveryResult where
  models : List LocalModel
  total_count : Nat
  total_size_bytes : Nat
  errors : List String
deriving DecidableEq

/-- system_info.rs lines 3-9: `struct SystemResources` (the probed snapshot;
probing itself is OS I/O and is passed in explicitly). -/
structure SystemResources where
  total_memory_gb : ℚ
  available_memory_gb : ℚ
  available_storage_gb : ℚ
  cpu_cores : Nat
deriving DecidableEq

/-- system_info.rs lines 11-20: `struct ModelCompatibility`. -/
structure ModelCompatibility where
  is_compatible : Bool
  confidence_level : ℚ
  required_memory_gb : ℚ
  available_memory_gb : ℚ
  memory_sufficient : Bool
  storage_sufficient : Bool
  warnings : List String
deriving DecidableEq

/-! ## Compatibility evaluator (system_info.rs) -/

/-- system_info.rs lines 173-175: `fn bytes_to_gb`. -/
def bytes_to_gb (bytes : Nat) : ℚ := (bytes : ℚ) / (1024 * 1024 * 1024)

/-- system_info.rs lines 121-137: the `memory_multiplier` local of
`estimate_model_memory_requirements` (the source holds it in a `mut` local
assigned by an if/else-if chain; here it is factored into its own
definition). -/
def memory_multiplier (model_name : String) : ℚ :=
  let lower := strLower model_name
  if strContains lower "7b" || strContains lower "7-b" then 1.5
  else if strContains lower "13b" || strContains lower "13-b" then 1.6
  else if strContains lower "70b" || strContains lower "70-b" then 1.8
  else if strContains lower "vision" || strContains lower "llava" then 1.7
  else if strContains lower "code" || strContains lower "coder" then 1.4
  else 1.2

/-- system_info.rs lines 119-146: `fn estimate_model_memory_requirements`. -/
def estimate_model_memory_requirements (model_size_bytes : Nat) (model_name : String) : ℚ :=
  let model_size_gb := bytes_to_gb model_size_bytes
  let estimated_memory := model_size_gb * memory_multiplier model_name
  if estimated_memory < 2.0 then 2.0 else estimated_memory

/-- system_info.rs lines 148-171: `fn calculate_confidence_level`
(`.min(1.0).max(0.0)` becomes `max (min · 1.0) 0.0`). -/
def calculate_confidence_level (memory_ratio storage_ratio : ℚ) : ℚ :=
  let memory_score : ℚ :=
    if memory_ratio ≥ 2.0 then 1.0
    else if memory_ratio ≥ 1.5 then 0.8
    else if memory_ratio ≥ 1.0 then 0.6
    else 0.0
  let storage_score : ℚ :=
    if storage_ratio ≥ 2.0 then 1.0
    else if storage_ratio ≥ 1.5 then 0.9
    else if storage_ratio ≥ 1.0 then 0.7
    else 0.0
  max (min (memory_score * 0.7 + storage_score * 0.3) 1.0) 0.0

/-- system_info.rs lines 66-70: the guarded memory-ratio computation inside
`validate_model_compatibility`. -/
def memory_ratio_of (usable_memory_gb required_memory_gb : ℚ) : ℚ :=
  if required_memory_gb > 0 then usable_memory_gb / required_memory_gb else 1.0

/-- system_info.rs lines 72-76: the guarded storage-ratio computation inside
`validate_model_compatibility` (`storage_overhead_gb = 1.0`). -/
def storage_ratio_of (available_storage_gb model_size_gb : ℚ) : ℚ :=
  if model_size_gb > 0 then available_storage_gb / (model_size_gb + 1.0) else 1.0

/-- system_info.rs lines 46-117: `fn validate_model_compatibility`, with the
probed `SystemResources` passed in explicitly.  The warning strings keep the
source's fixed prefixes; the interpolated numeric values of the Rust
`format!` calls are elided (no claim concerns them). -/
def validate_model_compatibility (system_resources : SystemResources)
    (model_size_bytes : Nat) (model_name : String) : ModelCompatibility :=
  let model_size_gb := bytes_to_gb model_size_bytes
  let required_memory_gb := estimate_model_memory_requirements model_size_bytes model_name
  let memory_buffer_gb : ℚ := 2.0
  let usable_memory_gb := system_resources.available_memory_gb - memory_buffer_gb
  let memory_sufficient : Bool := decide (usable_memory_gb ≥ required_memory_gb)
  let storage_overhead_gb : ℚ := 1.0
  let storage_sufficient : Bool :=
    decide (system_resources.available_storage_gb ≥ model_size_gb + storage_overhead_gb)
  let memory_ratio := memory_ratio_of usable_memory_gb required_memory_gb
  let storage_ratio := storage_ratio_of system_resources.available_storage_gb model_size_gb
  let confidence_level := calculate_confidence_level memory_ratio storage_ratio
  let warnings : List String :=
    (if !memory_sufficient then
      ["Insufficient RAM: Model requires GB, but only GB available after system overhead"]
     else if memory_ratio < 1.5 then
      ["Tight memory: Model requires GB, only GB available. Performance may be affected."]
     else []) ++
    (if !storage_sufficient then
      ["Insufficient storage: Need GB for model + overhead, but only GB available"]
     else []) ++
    (if system_resources.cpu_cores < 4 then
      ["CPU has fewer than 4 cores. Model inference may be slow."]
     else [])
  let is_compatible := memory_sufficient && storage_sufficient
  { is_compatible := is_compatible
    confidence_level := confidence_level
    required_memory_gb := required_memory_gb
    available_memory_gb := usable_memory_gb
    memory_sufficient := memory_sufficient
    storage_sufficient := storage_sufficient
    warnings := warnings }

/-! ## Filesystem scanner, classifier and discovery aggregator (ollama.rs) -/

/-- One node of the filesystem tree seen by the scanner.  A `file` carries the
outcome of its `fs::metadata` query (`none` = the query fails, so the size
defaults to 0, ollama.rs lines 312-315).  A `dir` carries whether
`fs::read_dir` succeeds on it (`readOk = false` = an I/O error such as
permission denied) and its entries in enumeration order. -/
inductive FsEntry where
  | file (name : String) (metaSize : Option Nat) : FsEntry
  | dir (name : String) (readOk : Bool) (entries : List FsEntry) : FsEntry

/-- ollama.rs lines 375-385: `fn determine_model_format`. -/
def determine_model_format (filename : String) : Option String :=
  if strEndsWith filename ".gguf" then some "GGUF"
  else if strEndsWith filename ".bin" then some "BIN"
  else if strEndsWith filename ".safetensors" then some "SafeTensors"
  else none

/-- ollama.rs lines 332-373: `fn extract_model_name`. -/
def extract_model_name (path : String) (source : ModelSource) : String :=
  match source with
  | ModelSource.Ollama =>
    if strContains path "/manifests/" || strContains path "\\manifests\\" then
      let parts :=
        if strContains path "/manifests/" then strSplitOn path "/manifests/"
        else strSplitOn path "\\manifests\\"
      if parts.length > 1 then
        let model_path := parts.getD 1 ""
        let model_parts :=
          if strContainsChar model_path '/' then strSplitOn model_path "/"
          else strSplitOn model_path "\\"
        if model_parts.length ≥ 2 then
          (model_parts.getD 0 "") ++ ":" ++ (model_parts.getD 1 "")
        else if model_parts.isEmpty = false then
          model_parts.getD 0 ""
        else file_stem_unix path
      else file_stem_unix path
    else file_stem_unix path
  | ModelSource.LmStudio => file_stem_unix path
  | ModelSource.Other => file_stem_unix path

/-- ollama.rs lines 297-330: `fn try_parse_model_file`.  `pathStr` is the full
path of the file and `fileName` its final component (the scanner always calls
it with `pathStr = dir-path ++ "/" ++ fileName`); `metaSize` is the outcome
of the `fs::metadata` query. -/
def try_parse_model_file (pathStr fileName : String) (metaSize : Option Nat)
    (source : ModelSource) : Option LocalModel :=
  let is_model_file :=
    strEndsWith fileName ".gguf"
    || strEndsWith fileName ".bin"
    || strEndsWith fileName ".safetensors"
    || (decide (source = ModelSource.Ollama) && decide (fileName = "model"))
  if !is_model_file then none
  else
    let size_bytes := metaSize.getD 0
    let model_name := extract_model_name pathStr source
    let format := determine_model_format fileName
    some { name := model_name
           path := pathStr
           size_bytes := size_bytes
           source := source
           format := format }

/-- ollama.rs lines 275-292: the entry loop of `fn scan_directory_for_models`.
A file entry contributes its classification result; a subdirectory is scanned
recursively, and a recursive failure (its `fs::read_dir` failing, the only
failure the recursive call can produce) is swallowed by the source's
`if let Ok(...)`, contributing nothing. -/
def scanList (dirPath : String) (source : ModelSource) : List FsEntry → List LocalModel
  | [] => []
  | FsEntry.file n msz :: rest =>
    (match try_parse_model_file (dirPath ++ "/" ++ n) n msz source with
      | some m => [m]
      | none => []) ++ scanList dirPath source rest
  | FsEntry.dir n rOk es :: rest =>
    (if rOk then scanList (dirPath ++ "/" ++ n) source es else []) ++
      scanList dirPath source rest

/-- ollama.rs lines 269-295: `fn scan_directory_for_models`.  `rOk` and
`entries` describe the directory at `dirPath`: when its `fs::read_dir` fails
the whole scan fails with the propagated error (line 272-273), otherwise the
entries are processed by `scanList`. -/
def scan_directory_for_models (dirPath : String) (rOk : Bool)
    (entries : List FsEntry) (source : ModelSource) : Except String (List LocalModel) :=
  if rOk then Except.ok (scanList dirPath source entries)
  else Except.error ("Failed to read directory " ++ dirPath)

/-- The scan operation of spec section 4.2 as the callers use it: the
existence guard (ollama.rs lines 197-199 and 217) composed with
`scan_directory_for_models`.  `root = none` models a root path that does not
exist. -/
def scan_root (dirPath : String) (root : Option (Bool × List FsEntry))
    (source : ModelSource) : Except String (List LocalModel) :=
  match root with
  | none => Except.ok []
  | some (rOk, entries) => scan_directory_for_models dirPath rOk entries source

/-- ollama.rs lines 191-208: `fn discover_ollama_models`, with the resolved
models directory path and its filesystem state passed in (`root = none` =
the directory does not exist, line 197-199). -/
def discover_ollama_models (ollama_dir : String)
    (root : Option (Bool × List FsEntry)) : Except String (List LocalModel) :=
  match root with
  | none => Except.ok []
  | some (rOk, entries) =>
    match scan_directory_for_models ollama_dir rOk entries ModelSource.Ollama with
    | Except.ok discovered => Except.ok discovered
    | Except.error e => Except.error ("Failed to scan Ollama directory: " ++ e)

/-- ollama.rs lines 216-223: the directory loop of `fn discover_lmstudio_models`.
Each candidate directory comes with its filesystem state (`none` = does not
exist, skipped by the `exists()` guard); a failing scan only logs a warning
and is skipped (line 220). -/
def lmstudio_scan (dirs : List (String × Option (Bool × List FsEntry))) : List LocalModel :=
  dirs.foldl
    (fun acc d =>
      match d.2 with
      | none => acc
      | some (rOk, entries) =>
        match scan_directory_for_models d.1 rOk entries ModelSource.LmStudio with
        | Except.ok discovered => acc ++ discovered
        | Except.error _ => acc)
    []

/-- ollama.rs lines 210-226: `fn discover_lmstudio_models` (its body has no
failing exit: every per-directory error is swallowed, so it always returns
`Ok`). -/
def discover_lmstudio_models
    (dirs : List (String × Option (Bool × List FsEntry))) : Except String (List LocalModel) :=
  Except.ok (lmstudio_scan dirs)

/-- ollama.rs lines 156-189: `fn discover_local_models`.  The state threaded
through the source's two `match` blocks is the triple
(models, errors, total_size_bytes); the per-model `total_size_bytes +=` loop
is a fold. -/
def discover_local_models (ollama_dir : String)
    (ollama_root : Option (Bool × List FsEntry))
    (lmstudio_dirs : List (String × Option (Bool × List FsEntry))) :
    Except String ModelDiscoveryResult :=
  let s1 : List LocalModel × List String × Nat :=
    match discover_ollama_models ollama_dir ollama_root with
    | Except.ok ms => (ms, [], ms.foldl (fun acc m => acc + m.size_bytes) 0)
    | Except.error e => ([], ["Ollama model discovery error: " ++ e], 0)
  let s2 : List LocalModel × List String × Nat :=
    match discover_lmstudio_models lmstudio_dirs with
    | Except.ok ms => (s1.1 ++ ms, s1.2.1, ms.foldl (fun acc m => acc + m.size_bytes) s1.2.2)
    | Except.error e => (s1.1, s1.2.1 ++ ["LMStudio model discovery error: " ++ e], s1.2.2)
  Except.ok
    { models := s2.1
      total_count := s2.1.length
      total_size_bytes := s2.2.2
      errors := s2.2.1 }

/-- Is an `Except` value a success?  Used to state that discovery never fails
outright. -/
def except_is_ok : Except String ModelDiscoveryResult → Bool
  | Except.ok _ => true
  | Except.error _ => false

/-! ## Spec-side definitions (refinement targets, written from the spec's
words, to be compared with the definitions translated from the source) -/

/-- Modelled from the spec: the memory-ratio step function of spec section
4.5 step 6 ("memory score is 1.0 at ratio≥2.0, 0.8 at ≥1.5, 0.6 at ≥1.0,
else 0.0"). -/
def spec_memory_score (memory_ratio : ℚ) : ℚ :=
  if memory_ratio ≥ 2.0 then 1.0
  else if memory_ratio ≥ 1.5 then 0.8
  else if memory_ratio ≥ 1.0 then 0.6
  else 0.0

/-- Modelled from the spec: the storage-ratio step function of spec section
4.5 step 6 ("storage score is 1.0 at ratio≥2.0, 0.9 at ≥1.5, 0.7 at ≥1.0,
else 0.0"). -/
def spec_storage_score (storage_ratio : ℚ) : ℚ :=
  if storage_ratio ≥ 2.0 then 1.0
  else if storage_ratio ≥ 1.5 then 0.9
  else if storage_ratio ≥ 1.0 then 0.7
  else 0.0

/-- The multiplier keyword table in the precedence order the source actually
evaluates (the amended order of claim C1): each row is the pair of keywords
and the multiplier the first matching row assigns. -/
def amended_keyword_multipliers : List (String × String × ℚ) :=
  [("7b", "7-b", 1.5),
   ("13b", "13-b", 1.6),
   ("70b", "70-b", 1.8),
   ("vision", "llava", 1.7),
   ("code", "coder", 1.4)]

/-- First-match selection over a keyword table by case-independent substring
match (the name is already lower-cased); no match gives the base 1.2. -/
def first_keyword_match (lower : String) : List (String × String × ℚ) → ℚ
  | [] => 1.2
  | (k1, k2, m) :: rest =>
    if strContains lower k1 || strContains lower k2 then m
    else first_keyword_match lower rest

/-- The amended-claim multiplier: first match in the order of
`amended_keyword_multipliers` wins. -/
def spec_multiplier_amended (name : String) : ℚ :=
  first_keyword_match (strLower name) amended_keyword_multipliers

/-- Concrete fixture: the discovery result for an Ollama root named "d" whose
directory listing fails, with no LMStudio models found. -/
def discovery_sample : ModelDiscoveryResult :=
  { models := []
    total_count := 0
    total_size_bytes := 0
    errors := ["Ollama model discovery error: " ++
      ("Failed to scan Ollama directory: " ++ ("Failed to read directory " ++ "d"))] }

/-! ## Helper lemmas -/

/-- Folding `+ size_bytes` over a list adds the sum of the sizes. -/
theorem foldl_size_bytes (l : List LocalModel) (init : Nat) :
    l.foldl (fun acc m => acc + m.size_bytes) init =
      init + (l.map LocalModel.size_bytes).sum := by
  induction l generalizing init with
  | nil => simp
  | cons x xs ih => simp [List.foldl_cons, ih, Nat.add_assoc]

/-- The required-memory estimate is clamped to at least 2 GB. -/
theorem two_le_estimate (bytes : Nat) (name : String) :
    (2 : ℚ) ≤ estimate_model_memory_requirements bytes name := by
  simp only [estimate_model_memory_requirements]
  split
  · norm_num
  · next h => linarith [not_lt.mp h]

/-! ## Claim theorems -/

/-- Claim C1, counterexample: the claim's stated precedence puts
"vision"/"llava" before "7b", so it predicts multiplier 1.7 for the name
"llava-7b"; the source checks "7b" first and yields 1.5. -/
theorem multiplier_precedence_counterexample :
    memory_multiplier "llava-7b" = 1.5 ∧ memory_multiplier "llava-7b" ≠ 1.7 := by
  have h : strContains (strLower "llava-7b") "7b" = true := by decide
  constructor
  · simp [memory_multiplier, h]
  · simp [memory_multiplier, h]
    norm_num

/-- Claim C1, amended: the memory multiplier is selected by case-insensitive
substring match in the precedence order "7b"/"7-b" gives 1.5, then
"13b"/"13-b" gives 1.6, then "70b"/"70-b" gives 1.8, then "vision"/"llava"
gives 1.7, then "code"/"coder" gives 1.4, else 1.2; the first match in that
order wins (so a name containing both "llava" and "7b" gets 1.5). -/
theorem multiplier_precedence_amended :
    ∀ name : String, memory_multiplier name = spec_multiplier_amended name := by
  intro name
  simp [memory_multiplier, spec_multiplier_amended, amended_keyword_multipliers,
    first_keyword_match]

/-- Claim C2: the scan operation applied to a root directory path that does
not exist returns an empty sequence of models and never an error; an I/O
error while listing the root (modelled by `readOk = false`, e.g. permission
denied) fails with the propagated error. -/
theorem scan_missing_root_empty_error_propagated :
    ∀ (path : String) (src : ModelSource) (es : List FsEntry),
      scan_root path none src = Except.ok [] ∧
      scan_root path (some (false, es)) src =
        Except.error ("Failed to read directory " ++ path) :=
  fun _ _ _ => ⟨rfl, rfl⟩

/-- Claim C5: classification produces a `LocalModel` exactly when the file
name ends in ".gguf", ".bin" or ".safetensors", or the source is the Ollama
provider and the file name is exactly "model"; in particular a file named
"model" qualifies under the Ollama source and not under Other or LmStudio. -/
theorem try_parse_qualification :
    ∀ (pathStr fileName : String) (metaSize : Option Nat) (src : ModelSource),
      ((try_parse_model_file pathStr fileName metaSize src).isSome ↔
        (strEndsWith fileName ".gguf" = true ∨ strEndsWith fileName ".bin" = true ∨
         strEndsWith fileName ".safetensors" = true ∨
         (src = ModelSource.Ollama ∧ fileName = "model"))) ∧
      (try_parse_model_file pathStr "model" metaSize ModelSource.Ollama).isSome = true ∧
      (try_parse_model_file pathStr "model" metaSize ModelSource.Other).isSome = false ∧
      (try_parse_model_file pathStr "model" metaSize ModelSource.LmStudio).isSome = false := by
  intro pathStr fileName metaSize src
  refine ⟨?_, rfl, rfl, rfl⟩
  have key : (try_parse_model_file pathStr fileName metaSize src).isSome =
      (strEndsWith fileName ".gguf" || strEndsWith fileName ".bin" ||
       strEndsWith fileName ".safetensors" ||
       (decide (src = ModelSource.Ollama) && decide (fileName = "model"))) := by
    simp only [try_parse_model_file]
    cases h : (strEndsWith fileName ".gguf" || strEndsWith fileName ".bin" ||
        strEndsWith fileName ".safetensors" ||
        (decide (src = ModelSource.Ollama) && decide (fileName = "model"))) with
    | false => simp [h]
    | true => simp [h]
  rw [key]
  simp only [Bool.or_eq_true, Bool.and_eq_true, decide_eq_true_iff]
  tauto

/-- Claim C7: the confidence level equals the clamped weighted combination of
the spec's step-function scores (memory weighted 0.7, storage 0.3); the
spec's example — memory ratio 8/6 with storage ratio 2.0 — yields 0.72; and
`is_compatible` equals `memory_sufficient AND storage_sufficient`. -/
theorem confidence_formula_and_compatibility :
    ∀ (mr sr : ℚ) (res : SystemResources) (bytes : Nat) (name : String),
      calculate_confidence_level mr sr =
        max (min (spec_memory_score mr * 0.7 + spec_storage_score sr * 0.3) 1.0) 0.0 ∧
      calculate_confidence_level (8 / 6) 2 = 72 / 100 ∧
      (validate_model_compatibility res bytes name).is_compatible =
        ((validate_model_compatibility res bytes name).memory_sufficient &&
         (validate_model_compatibility res bytes name).storage_sufficient) := by
  intro mr sr res bytes name
  refine ⟨rfl, ?_, rfl⟩
  simp only [calculate_confidence_level]
  norm_num

/-- Claim C8: the estimated required memory is the model size in GB times the
selected multiplier, clamped to a floor of 2.0 GB; about 0.1 GB with a
keyword-free name yields 2.0 GB, and 4 GB with a "7b" name yields 6.0 GB
unclamped. -/
theorem estimate_memory_floor :
    ∀ (bytes : Nat) (name : String),
      estimate_model_memory_requirements bytes name =
        max 2.0 (bytes_to_gb bytes * memory_multiplier name) ∧
      estimate_model_memory_requirements 107374182 "tiny" = 2 ∧
      estimate_model_memory_requirements 4294967296 "model-7b-instruct" = 6 := by
  intro bytes name
  refine ⟨?_, ?_, ?_⟩
  · simp only [estimate_model_memory_requirements]
    split
    · next h => exact (max_eq_left h.le).symm
    · next h => exact (max_eq_right (not_lt.mp h)).symm
  · have h1 : (strContains (strLower "tiny") "7b" || strContains (strLower "tiny") "7-b") = false := by decide
    have h2 : (strContains (strLower "tiny") "13b" || strContains (strLower "tiny") "13-b") = false := by decide
    have h3 : (strContains (strLower "tiny") "70b" || strContains (strLower "tiny") "70-b") = false := by decide
    have h4 : (strContains (strLower "tiny") "vision" || strContains (strLower "tiny") "llava") = false := by decide
    have h5 : (strContains (strLower "tiny") "code" || strContains (strLower "tiny") "coder") = false := by decide
    simp only [estimate_model_memory_requirements, memory_multiplier, h1, h2, h3, h4, h5,
      Bool.false_eq_true, if_false, bytes_to_gb]
    norm_num
  · have h : (strContains (strLower "model-7b-instruct") "7b" ||
        strContains (strLower "model-7b-instruct") "7-b") = true := by decide
    simp only [estimate_model_memory_requirements, memory_multiplier, h, if_true, bytes_to_gb]
    norm_num

/-- Claim C3: every discovery run satisfies `total_count = length models` and
`total_size_bytes = sum of member sizes`, and a provider error (here: the
Ollama root failing) does not remove the partial results already collected
into `models` (the LMStudio models are retained). -/
theorem discovery_result_invariants :
    ∀ (od : String) (oroot : Option (Bool × List FsEntry))
      (lds : List (String × Option (Bool × List FsEntry)))
      (r : ModelDiscoveryResult) (es : List FsEntry),
      discover_local_models od oroot lds = Except.ok r →
      (r.total_count = r.models.length ∧
       r.total_size_bytes = (r.models.map LocalModel.size_bytes).sum ∧
       (oroot = some (false, es) → r.models = lmstudio_scan lds)) := by
  intro od oroot lds r es h
  cases hol : discover_ollama_models od oroot with
  | ok ms =>
    simp only [discover_local_models, hol, discover_lmstudio_models] at h
    rw [Except.ok.injEq] at h
    subst h
    refine ⟨rfl, ?_, ?_⟩
    · simp [foldl_size_bytes, List.map_append, List.sum_append]
    · intro ho
      subst ho
      simp [discover_ollama_models, scan_directory_for_models] at hol
  | error e =>
    simp only [discover_local_models, hol, discover_lmstudio_models] at h
    rw [Except.ok.injEq] at h
    subst h
    exact ⟨rfl, by simp [foldl_size_bytes], fun _ => rfl⟩

/-- Witness for claim C3 at a failing Ollama root and no LMStudio
directories. -/
theorem discovery_result_invariants_witness :
    discovery_sample.total_count = discovery_sample.models.length ∧
    discovery_sample.total_size_bytes =
      (discovery_sample.models.map LocalModel.size_bytes).sum ∧
    discovery_sample.models = lmstudio_scan [] := by
  have h := discovery_result_invariants "d" (some (false, [])) [] discovery_sample [] rfl
  exact ⟨h.1, h.2.1, h.2.2 rfl⟩

/-- Claim C4: discovery never fails outright; its error sequence is exactly
the Ollama-tagged message when the Ollama scan fails and empty otherwise —
in particular it does not depend on the LMStudio directories at all, so a
failing individual LMStudio directory adds no top-level error. -/
theorem discover_never_fails_error_policy :
    ∀ (od : String) (oroot : Option (Bool × List FsEntry))
      (lds : List (String × Option (Bool × List FsEntry)))
      (es : List FsEntry) (r : ModelDiscoveryResult),
      except_is_ok (discover_local_models od oroot lds) = true ∧
      (discover_local_models od oroot lds = Except.ok r →
        ((r.errors = match discover_ollama_models od oroot with
          | Except.ok _ => []
          | Except.error e => ["Ollama model discovery error: " ++ e]) ∧
         (oroot = some (false, es) →
          r.errors = ["Ollama model discovery error: " ++
            ("Failed to scan Ollama directory: " ++
              ("Failed to read directory " ++ od))]))) := by
  intro od oroot lds es r
  constructor
  · cases hol : discover_ollama_models od oroot <;>
      simp [discover_local_models, hol, discover_lmstudio_models, except_is_ok]
  · intro h
    cases hol : discover_ollama_models od oroot with
    | ok ms =>
      simp only [discover_local_models, hol, discover_lmstudio_models] at h
      rw [Except.ok.injEq] at h
      subst h
      refine ⟨by simp [hol], ?_⟩
      intro ho
      subst ho
      simp [discover_ollama_models, scan_directory_for_models] at hol
    | error e =>
      simp only [discover_local_models, hol, discover_lmstudio_models] at h
      rw [Except.ok.injEq] at h
      subst h
      refine ⟨by simp [hol], ?_⟩
      intro ho
      subst ho
      simp only [discover_ollama_models, scan_directory_for_models, Bool.false_eq_true,
        if_false, Except.error.injEq] at hol
      rw [hol]

/-- Witness for claim C4: a failing Ollama root together with a failing
LMStudio directory — the single error is Ollama-tagged. -/
theorem discover_never_fails_error_policy_witness :
    except_is_ok (discover_local_models "d" (some (false, []))
      [("l", some (false, []))]) = true ∧
    discovery_sample.errors = ["Ollama model discovery error: " ++
      ("Failed to scan Ollama directory: " ++ ("Failed to read directory " ++ "d"))] := by
  have h := discover_never_fails_error_policy "d" (some (false, []))
    [("l", some (false, []))] [] discovery_sample
  exact ⟨h.1, (h.2 rfl).2 rfl⟩

/-- Claim C6: Ollama name derivation joins the first two path components
after a `manifests` segment (either separator convention) with a colon; with
only one component after the segment the component is used bare; without a
`manifests` segment, and for LmStudio and Other sources, the name is the
file's stem. -/
theorem extract_model_name_cases :
    ∀ (path a b r t c : String) (rest : List String),
      (strContains path "/manifests/" = true →
       strSplitOn path "/manifests/" = [a, b] →
       strContainsChar b '/' = true →
       strSplitOn b "/" = r :: t :: rest →
       extract_model_name path ModelSource.Ollama = r ++ ":" ++ t) ∧
      (strContains path "/manifests/" = false →
       strContains path "\\manifests\\" = true →
       strSplitOn path "\\manifests\\" = [a, b] →
       strContainsChar b '/' = false →
       strSplitOn b "\\" = r :: t :: rest →
       extract_model_name path ModelSource.Ollama = r ++ ":" ++ t) ∧
      (strContains path "/manifests/" = true →
       strSplitOn path "/manifests/" = [a, b] →
       strContainsChar b '/' = false →
       strSplitOn b "\\" = [c] →
       extract_model_name path ModelSource.Ollama = c) ∧
      (strContains path "/manifests/" = false →
       strContains path "\\manifests\\" = false →
       extract_model_name path ModelSource.Ollama = file_stem_unix path) ∧
      extract_model_name path ModelSource.LmStudio = file_stem_unix path ∧
      extract_model_name path ModelSource.Other = file_stem_unix path ∧
      extract_model_name "/home/user/.ollama/models/manifests/llama3/8b/model"
        ModelSource.Ollama = "llama3:8b" := by
  intro path a b r t c rest
  refine ⟨?_, ?_, ?_, ?_, rfl, rfl, by decide⟩
  · intro h0 h1 h2 h3
    simp [extract_model_name, h0, h1, h2, h3]
  · intro h0 h0' h1 h2 h3
    simp [extract_model_name, h0, h0', h1, h2, h3]
  · intro h0 h1 h2 h3
    simp [extract_model_name, h0, h1, h2, h3]
  · intro h0 h0'
    simp [extract_model_name, h0, h0']

/-- Witness for claim C6 at the spec's exemplar path. -/
theorem extract_model_name_cases_witness :
    strContains "/home/user/.ollama/models/manifests/llama3/8b/model" "/manifests/" = true ∧
    strSplitOn "/home/user/.ollama/models/manifests/llama3/8b/model" "/manifests/" =
      ["/home/user/.ollama/models", "llama3/8b/model"] ∧
    strContainsChar "llama3/8b/model" '/' = true ∧
    strSplitOn "llama3/8b/model" "/" = ["llama3", "8b", "model"] ∧
    extract_model_name "/home/user/.ollama/models/manifests/llama3/8b/model"
      ModelSource.Ollama = "llama3" ++ ":" ++ "8b" := by
  refine ⟨by decide, by decide, by decide, by decide, ?_⟩
  exact (extract_model_name_cases "/home/user/.ollama/models/manifests/llama3/8b/model"
    "/home/user/.ollama/models" "llama3/8b/model" "llama3" "8b" "z" ["model"]).1
    (by decide) (by decide) (by decide) (by decide)

/-- Claim C9: the compatibility evaluation never divides by zero — the memory
ratio is `usable / required` only when the required memory is strictly
positive (a nonzero denominator) and defaults to 1.0 otherwise, and the
storage ratio is `available_storage / (size + 1.0)` only when the model size
is strictly positive (again a nonzero denominator) and defaults to 1.0
otherwise; these guarded ratios are exactly what the confidence computation
consumes. -/
theorem ratio_guards_no_div_by_zero :
    ∀ (usable required availStorage size_gb : ℚ) (res : SystemResources)
      (bytes : Nat) (name : String),
      (required > 0 →
        memory_ratio_of usable required = usable / required ∧ required ≠ 0) ∧
      (¬ required > 0 → memory_ratio_of usable required = 1.0) ∧
      (size_gb > 0 →
        storage_ratio_of availStorage size_gb = availStorage / (size_gb + 1.0) ∧
          size_gb + 1.0 ≠ 0) ∧
      (¬ size_gb > 0 → storage_ratio_of availStorage size_gb = 1.0) ∧
      (validate_model_compatibility res bytes name).confidence_level =
        calculate_confidence_level
          (memory_ratio_of (res.available_memory_gb - 2.0)
            (estimate_model_memory_requirements bytes name))
          (storage_ratio_of res.available_storage_gb (bytes_to_gb bytes)) := by
  intro usable required availStorage size_gb res bytes name
  refine ⟨?_, ?_, ?_, ?_, rfl⟩
  · intro h
    exact ⟨by rw [memory_ratio_of, if_pos h], ne_of_gt h⟩
  · intro h
    rw [memory_ratio_of, if_neg h]
  · intro h
    refine ⟨by rw [storage_ratio_of, if_pos h], ?_⟩
    have hd : (0:ℚ) < size_gb + 1.0 := by linarith
    exact ne_of_gt hd
  · intro h
    rw [storage_ratio_of, if_neg h]

/-- Witness for claim C9 at positive required memory and positive model
size. -/
theorem ratio_guards_no_div_by_zero_witness :
    (memory_ratio_of 8 6 = 8 / 6 ∧ (6:ℚ) ≠ 0) ∧
    (storage_ratio_of 20 4 = 20 / (4 + 1.0) ∧ (4:ℚ) + 1.0 ≠ 0) := by
  have h := ratio_guards_no_div_by_zero 8 6 20 4 (SystemResources.mk 16 16 100 8) 0 "x"
  exact ⟨h.1 (by norm_num), h.2.2.1 (by norm_num)⟩

/-- Claim C10: when the probed available memory is below the 2.0 GB reserve,
the returned compatibility verdict reports a negative `available_memory_gb`
(usable memory has no floor at zero) and `memory_sufficient` is false, since
the required memory is always at least 2.0 GB. -/
theorem low_memory_reports_negative_usable :
    ∀ (res : SystemResources) (bytes : Nat) (name : String),
      res.available_memory_gb < 2.0 →
      ((validate_model_compatibility res bytes name).available_memory_gb < 0 ∧
       (validate_model_compatibility res bytes name).memory_sufficient = false) := by
  intro res bytes name h
  constructor
  · simp only [validate_model_compatibility]
    linarith
  · simp only [validate_model_compatibility]
    rw [decide_eq_false_iff_not]
    intro hge
    have h2 := two_le_estimate bytes name
    linarith

/-- Witness for claim C10: 1 GB of available memory yields a negative usable
figure and an insufficient-memory verdict. -/
theorem low_memory_reports_negative_usable_witness :
    (validate_model_compatibility (SystemResources.mk 16 1 100 8) 0 "x").available_memory_gb < 0 ∧
    (validate_model_compatibility (SystemResources.mk 16 1 100 8) 0 "x").memory_sufficient = false :=
  low_memory_reports_negative_usable (SystemResources.mk 16 1 100 8) 0 "x" (by norm_num)
